import Mathlib

/-!
# Verification of the fedify federation core

A shallow embedding of the fedify federation core in Lean 4, together with
theorems checking the natural-language specification against the code.

Sources embedded:

* `src/federation/middleware.ts` — the `Federation` registry (`setActorDispatcher`,
  `setOutboxDispatcher`, `setInboxListeners`, the outbox callback-setter chain,
  the inbox listener setter, and `Federation.handle`).  This file is present in
  the repository and is embedded directly from its code.
* The `Router` (`src/federation/router.ts`) and the outbox send pipeline
  (`src/federation/send.ts`, exporting `extractInboxes` and `sendActivity`) are
  not part of the available sources — only their callers and tests are — so
  they are modelled from the specification (marked `Modelled from the spec:` in
  their doc comments) and cross-checked against the concrete expectations of
  `src/federation/send.test.ts`.

Conventions: TypeScript exceptions become explicit `Option FedError` /
`Except` results; the mutable `Federation` object becomes explicit state
passing (`Federation → Option FedError × Federation`); JavaScript `Set`s of
strings become duplicate-free `List String`s in insertion order; JavaScript
`Map`s / plain objects used as maps become association lists in insertion
order.
-/

namespace Fedify

/-- The opening-brace character, written via its code point. -/
def lbrace : Char := Char.ofNat 123

/-- The closing-brace character, written via its code point. -/
def rbrace : Char := Char.ofNat 125

/-! ## Outbox send pipeline (`src/federation/send.ts`, modelled from the spec) -/

/-- Modelled from the spec: a recipient actor as consumed by `extractInboxes`
(§4.5): it has an identifier URI, a personal inbox URI, and optionally a
shared inbox declared under its endpoints (`endpoints.sharedInbox` in
`send.test.ts`). URLs are modelled as strings. -/
structure Recipient where
  id : String
  inbox : String
  sharedInbox : Option String
deriving DecidableEq, Repr

/-- Split a character list at every occurrence of the separator character,
keeping empty groups (so the result always has one more group than there are
separators). -/
def splitChars (sep : Char) : List Char → List (List Char)
  | [] => [[]]
  | c :: cs =>
    let rest := splitChars sep cs
    if c = sep then [] :: rest
    else
      match rest with
      | [] => [[c]]
      | g :: gs => (c :: g) :: gs

/-- The `/`-separated segments of a string (the splitting of `URL.pathname`
and of URI-template patterns used throughout). -/
def splitSegments (s : String) : List String :=
  (splitChars (Char.ofNat 47) s.data).map String.mk

/-- Join strings with `/` separators — the inverse of `splitSegments` on its
image. -/
def joinSlash : List String → String
  | [] => ""
  | [s] => s
  | s :: rest => s ++ "/" ++ joinSlash rest

/-- Modelled from the spec: the origin of a URL — its scheme and host part.
On a string URL of the shape `scheme://host/rest` this is `scheme://host`,
obtained by keeping the first three `/`-separated components. -/
def origin (url : String) : String :=
  joinSlash ((splitSegments url).take 3)

/-- Modelled from the spec (§4.5): the inbox chosen for a recipient — the
shared inbox when `preferSharedInbox` is set and the recipient declares one,
otherwise the personal inbox. -/
def chooseInbox (preferSharedInbox : Bool) (r : Recipient) : String :=
  match preferSharedInbox, r.sharedInbox with
  | true, some shared => shared
  | _, _ => r.inbox

/-- Modelled from the spec (§4.5): whether an inbox is excluded because its
origin matches the origin of some URI in `excludeBaseUris`. -/
def excludedInbox (excludeBaseUris : List String) (inbox : String) : Bool :=
  excludeBaseUris.any (fun base => origin base = origin inbox)

/-- Insert an identifier into a recipient set (modelled as a duplicate-free
list in insertion order): a no-op when already present. -/
def insertId (ids : List String) (id : String) : List String :=
  if id ∈ ids then ids else ids ++ [id]

/-- Add one recipient identifier under an inbox key in the inbox mapping
(an association list from inbox URL to recipient-identifier set): extend the
existing entry for that inbox, or append a fresh entry. -/
def addRecipient : List (String × List String) → String → String →
    List (String × List String)
  | [], inbox, id => [(inbox, [id])]
  | (k, v) :: rest, inbox, id =>
    if k = inbox then (k, insertId v id) :: rest
    else (k, v) :: addRecipient rest inbox id

/-- Modelled from the spec (§4.5): the iteration core of `extractInboxes` —
for each recipient in order, choose its inbox, skip it when the chosen
inbox's origin is excluded, and otherwise group its identifier under the
chosen inbox URL. -/
def extractInboxesFrom (preferSharedInbox : Bool) (excludeBaseUris : List String) :
    List (String × List String) → List Recipient → List (String × List String)
  | acc, [] => acc
  | acc, r :: rs =>
    if excludedInbox excludeBaseUris (chooseInbox preferSharedInbox r) then
      extractInboxesFrom preferSharedInbox excludeBaseUris acc rs
    else
      extractInboxesFrom preferSharedInbox excludeBaseUris
        (addRecipient acc (chooseInbox preferSharedInbox r) r.id) rs

/-- Modelled from the spec: `extractInboxes` of `src/federation/send.ts`
(§4.5, cross-checked against `send.test.ts`): a pure function grouping
recipients by their chosen inbox URL into a mapping from inbox URL to the set
of recipient identifiers, skipping recipients whose chosen inbox origin
matches an entry of `excludeBaseUris`. -/
def extractInboxes (recipients : List Recipient) (preferSharedInbox : Bool)
    (excludeBaseUris : List String) : List (String × List String) :=
  extractInboxesFrom preferSharedInbox excludeBaseUris [] recipients

/-- Modelled from the spec: the activity payload of `sendActivity`, reduced
to the fields the send pipeline inspects — the optional activity id and the
list of actor identifiers carried by its `actor` property. -/
structure Activity where
  id : Option String
  actors : List String
deriving DecidableEq, Repr

/-- Modelled from the spec: the remote server's HTTP response to the inbox
POST, as classified by `sendActivity`: status code, status text, body text. -/
structure HttpResponse where
  status : Nat
  statusText : String
  body : String
deriving DecidableEq, Repr

/-- Modelled from the spec (§7 error taxonomy): the failures `sendActivity`
can produce — a `TypeError`-class validation error, or a delivery error for
a non-2xx remote response. -/
inductive SendError where
  | typeError (message : String)
  | deliveryError (message : String)
deriving DecidableEq, Repr

/-- The message text of a `SendError`. -/
def SendError.message : SendError → String
  | .typeError m => m
  | .deliveryError m => m

/-- Modelled from the spec (§4.5): `sendActivity` of `src/federation/send.ts`.
The network is abstracted by passing the remote response the inbox would
return; the returned `Bool` records whether the POST was actually issued.
The function validates that the activity has at least one actor (failing fast
with a `TypeError`-class error before any network call), then classifies the
response: 2xx is success, anything else fails with a delivery error carrying
the activity id, inbox URL, status, status text and body verbatim. -/
def sendActivity (activity : Activity) (inbox : String)
    (response : HttpResponse) : Except SendError Unit × Bool :=
  if activity.actors.isEmpty then
    (.error (.typeError "The activity to send must have at least one actor property."),
     false)
  else if 200 ≤ response.status ∧ response.status < 300 then
    (.ok (), true)
  else
    (.error (.deliveryError
      ("Failed to send activity " ++ (activity.id.getD "") ++ " to " ++ inbox ++
        " (" ++ toString response.status ++ " " ++ response.statusText ++ "):\n" ++
        response.body)),
     true)

/-! ## Router (`src/federation/router.ts`, modelled from the spec §4.1) -/

/-- State machine extracting the variable names of a URI-template pattern from
its character list: outside a variable (`none`) it scans for an opening brace;
inside a variable (`some acc`) it accumulates name characters until the
closing brace. An unterminated variable is dropped. -/
def extractVarsAux : List Char → Option (List Char) → List String
  | [], _ => []
  | c :: cs, none =>
    if c = lbrace then extractVarsAux cs (some []) else extractVarsAux cs none
  | c :: cs, some acc =>
    if c = rbrace then String.mk acc :: extractVarsAux cs none
    else extractVarsAux cs (some (acc ++ [c]))

/-- Modelled from the spec: the set of variable names of a URI-template
pattern (RFC 6570 simple string expansion, the only form the repository
uses), as a duplicate-free list in first-occurrence order — the order-
insensitive image of the JavaScript `Set` returned by `Router.add`. -/
def patternVariables (pattern : String) : List String :=
  (extractVarsAux pattern.data none).dedup

/-- Modelled from the spec (§4.1): the router's state — the registered
`(pattern, role name)` pairs in registration order. -/
structure Router where
  routes : List (String × String)
deriving DecidableEq, Repr

/-- Modelled from the spec (§4.1): `Router.has(name)` — whether a route is
registered under the given role name. -/
def Router.has (router : Router) (name : String) : Bool :=
  router.routes.any (fun route => route.2 = name)

/-- Modelled from the spec (§4.1): `Router.add(pattern, name)` registers the
pattern under the role name and returns the set of variable names of the
pattern. Registration is modelled by returning the updated router alongside
the variable set. -/
def Router.add (router : Router) (pattern : String) (name : String) :
    Router × List String :=
  (⟨router.routes ++ [(pattern, name)]⟩, patternVariables pattern)

/-- A path segment of a URI-template pattern is a variable segment when it is
`«lbrace»name«rbrace»`: at least two characters, starting with an opening and
ending with a closing brace. -/
def isVariableSegment (seg : String) : Bool :=
  seg.data.length ≥ 2 && seg.data.head? = some lbrace &&
    seg.data.getLast? = some rbrace

/-- The variable name of a variable segment: the characters between the
braces. -/
def variableName (seg : String) : String :=
  String.mk (seg.data.drop 1).dropLast

/-- Modelled from the spec (§4.1): match the segments of a registered pattern
against the segments of a request path — a variable segment captures exactly
one path segment, any other segment must match literally; on success, return
the captured `(variable, value)` pairs. -/
def matchSegments : List String → List String → Option (List (String × String))
  | [], [] => some []
  | pseg :: ps, sseg :: ss =>
    if isVariableSegment pseg then
      (matchSegments ps ss).map (fun values => (variableName pseg, sseg) :: values)
    else if pseg = sseg then matchSegments ps ss
    else none
  | _, _ => none

/-- The result of routing a request path: the matched route's role name and
the captured variable values. -/
structure RouteMatch where
  name : String
  values : List (String × String)
deriving DecidableEq, Repr

/-- Modelled from the spec (§4.1): `Router.route(path)` — the first registered
pattern matching the path wins (deterministic first-match policy); `none`
when no pattern matches. -/
def Router.route (router : Router) (path : String) : Option RouteMatch :=
  router.routes.findSome? (fun route =>
    (matchSegments (splitSegments route.1) (splitSegments path)).map
      (fun values => ⟨route.2, values⟩))

/-! ## The `Federation` registry (`src/federation/middleware.ts`) -/

/-- The error classes thrown by the `Federation` registration methods:
`RouterError` (from `router.ts`) and JavaScript's `TypeError`. -/
inductive FedError where
  | routerError (message : String)
  | typeError (message : String)
deriving DecidableEq, Repr

/-- The `#outboxCallbacks` bundle of `Federation` (middleware.ts:34-39,
106-111): the required outbox dispatcher plus optional counter and cursor
callbacks. The callback types are abstract parameters. -/
structure OutboxCallbacks (OD OC OCur : Type) where
  dispatcher : OD
  counter : Option OC
  firstCursor : Option OCur
  lastCursor : Option OCur
deriving DecidableEq, Repr

/-- The state of a `Federation<TContextData>` instance (middleware.ts:31-57):
the router, the optional actor dispatcher, the optional outbox callback
bundle, the inbox listener map (an association list keyed by activity-variant
identity, here a `String` key) and the optional inbox error handler. The
callback types `A`, `OD`, `OC`, `OCur`, `L`, `H` are abstract; the document
loader is an external collaborator (`docloader.ts` is out of scope) and is
not modelled. -/
structure Federation (A OD OC OCur L H : Type) where
  router : Router
  actorDispatcher : Option A
  outboxCallbacks : Option (OutboxCallbacks OD OC OCur)
  inboxListeners : List (String × L)
  inboxErrorHandler : Option H
  treatHttps : Bool
deriving DecidableEq, Repr

variable {A OD OC OCur L H : Type}

/-- The `Federation` constructor (middleware.ts:51-57): a fresh router with
the WebFinger route pre-registered, empty listener map, and no dispatchers. -/
def Federation.init (treatHttps : Bool) : Federation A OD OC OCur L H :=
  { router := (Router.add ⟨[]⟩ "/.well-known/webfinger" "webfinger").1
    actorDispatcher := none
    outboxCallbacks := none
    inboxListeners := []
    inboxErrorHandler := none
    treatHttps := treatHttps }

/-- `Federation.setActorDispatcher` (middleware.ts:68-82): fails when the
`actor` role is already routed; otherwise adds the route, validates that the
pattern has exactly the one variable `handle` (failing after the route was
already added), and stores the dispatcher. Thrown exceptions are modelled as
`some` error alongside the post-call state. -/
def Federation.setActorDispatcher (fed : Federation A OD OC OCur L H)
    (path : String) (dispatcher : A) :
    Option FedError × Federation A OD OC OCur L H :=
  if fed.router.has "actor" then
    (some (.routerError "Actor dispatcher already set."), fed)
  else
    let added := fed.router.add path "actor"
    let fed1 := { fed with router := added.1 }
    if added.2.length ≠ 1 ∨ "handle" ∉ added.2 then
      (some (.routerError
        "Path for actor dispatcher must have one variable: \x7bhandle\x7d"), fed1)
    else
      (none, { fed1 with actorDispatcher := some dispatcher })

/-- `Federation.setOutboxDispatcher` (middleware.ts:93-128): fails when the
`outbox` role is already routed; otherwise adds the route, validates the
`handle` arity, and stores a fresh callback bundle holding the dispatcher.
The returned setter chain is modelled by the state-passing functions
`Federation.setCounter` / `setFirstCursor` / `setLastCursor` below, which
mutate the stored bundle exactly as the closures in the code mutate the
aliased `callbacks` object. -/
def Federation.setOutboxDispatcher (fed : Federation A OD OC OCur L H)
    (path : String) (dispatcher : OD) :
    Option FedError × Federation A OD OC OCur L H :=
  if fed.router.has "outbox" then
    (some (.routerError "Outbox dispatcher already set."), fed)
  else
    let added := fed.router.add path "outbox"
    let fed1 := { fed with router := added.1 }
    if added.2.length ≠ 1 ∨ "handle" ∉ added.2 then
      (some (.routerError
        "Path for outbox dispatcher must have one variable: \x7bhandle\x7d"), fed1)
    else
      (none, { fed1 with outboxCallbacks := some ⟨dispatcher, none, none, none⟩ })

/-- The `setCounter` closure of the chain returned by `setOutboxDispatcher`
(middleware.ts:114-117): unconditionally assigns `callbacks.counter` and
returns the same chain. The chain only exists after `setOutboxDispatcher`
succeeded, so the `none` branch is unreachable through the public API. -/
def Federation.setCounter (fed : Federation A OD OC OCur L H) (counter : OC) :
    Federation A OD OC OCur L H :=
  match fed.outboxCallbacks with
  | none => fed
  | some callbacks =>
    { fed with outboxCallbacks := some { callbacks with counter := some counter } }

/-- The `setFirstCursor` closure (middleware.ts:118-121): unconditionally
assigns `callbacks.firstCursor`. -/
def Federation.setFirstCursor (fed : Federation A OD OC OCur L H) (cursor : OCur) :
    Federation A OD OC OCur L H :=
  match fed.outboxCallbacks with
  | none => fed
  | some callbacks =>
    { fed with outboxCallbacks := some { callbacks with firstCursor := some cursor } }

/-- The `setLastCursor` closure (middleware.ts:122-125): unconditionally
assigns `callbacks.lastCursor`. -/
def Federation.setLastCursor (fed : Federation A OD OC OCur L H) (cursor : OCur) :
    Federation A OD OC OCur L H :=
  match fed.outboxCallbacks with
  | none => fed
  | some callbacks =>
    { fed with outboxCallbacks := some { callbacks with lastCursor := some cursor } }

/-- `Federation.setInboxListeners` (middleware.ts:130-161): fails when the
`inbox` role is already routed; otherwise adds the route and validates the
`handle` arity. The returned listener setter is modelled by
`Federation.on` / `Federation.onError` below, which operate on the aliased
`#inboxListeners` map exactly as the closures in the code. -/
def Federation.setInboxListeners (fed : Federation A OD OC OCur L H)
    (path : String) : Option FedError × Federation A OD OC OCur L H :=
  if fed.router.has "inbox" then
    (some (.routerError "Inbox already set."), fed)
  else
    let added := fed.router.add path "inbox"
    let fed1 := { fed with router := added.1 }
    if added.2.length ≠ 1 ∨ "handle" ∉ added.2 then
      (some (.routerError "Path for inbox must have one variable: \x7bhandle\x7d"),
       fed1)
    else
      (none, fed1)

/-- The `on` closure of the listener setter (middleware.ts:142-152): fails
with a `TypeError` when a listener is already registered for the activity
variant, otherwise stores the listener in the shared map and returns the same
setter. Activity-variant identity (the class object used as `Map` key) is
modelled by a `String` key. -/
def Federation.on (fed : Federation A OD OC OCur L H) (type : String)
    (listener : L) : Option FedError × Federation A OD OC OCur L H :=
  if fed.inboxListeners.any (fun entry => entry.1 = type) then
    (some (.typeError "Listener already set for this type."), fed)
  else
    (none, { fed with inboxListeners := fed.inboxListeners ++ [(type, listener)] })

/-- The `onError` closure of the listener setter (middleware.ts:153-158):
last-write-wins assignment of the inbox error handler. -/
def Federation.onError (fed : Federation A OD OC OCur L H) (handler : H) :
    Federation A OD OC OCur L H :=
  { fed with inboxErrorHandler := some handler }

/-- An inbound HTTP request as far as the dispatch handler inspects it: the
code computes `new URL(request.url).pathname` and routes on it; URL parsing
is the runtime's, so the request is modelled by its pathname. -/
structure Request where
  pathname : String
deriving DecidableEq, Repr

/-- The request-scoped `Context` (middleware.ts:183-189, `context.ts` is out
of scope): it carries the router, the request, the opaque context data and
the HTTPS-normalization flag. The document loader is not modelled. -/
structure Context (CD : Type) where
  router : Router
  request : Request
  data : CD
  treatHttps : Bool

/-- `Federation.handle` (middleware.ts:169-233): resolve the request path
against the router; on no match return `onNotFound`'s response as-is; on a
match construct a `Context` and branch on the route's role name, delegating
`webfinger`, `actor`, `outbox` and `inbox` to their sub-handlers (external
collaborators from `handler.ts` / `webfinger/handler.ts`, abstracted as
function parameters receiving exactly the state the code passes them); any
other role falls through to `onNotFound`. The response type `R` is abstract;
promise unwrapping is not modelled. -/
def Federation.handle {CD R : Type} (fed : Federation A OD OC OCur L H)
    (request : Request) (contextData : CD)
    (onNotFound : Request → R) (onNotAcceptable : Request → R)
    (handleWebFinger : Request → Context CD → Option A → (Request → R) → R)
    (handleActor : Request → Option String → Context CD → Option A →
      (Request → R) → (Request → R) → R)
    (handleOutbox : Request → Option String → Context CD →
      Option (OutboxCallbacks OD OC OCur) → (Request → R) → (Request → R) → R)
    (handleInbox : Request → Option String → Context CD → Option A →
      List (String × L) → Option H → (Request → R) → R) : R :=
  match fed.router.route request.pathname with
  | none => onNotFound request
  | some route =>
    let context : Context CD := ⟨fed.router, request, contextData, fed.treatHttps⟩
    match route.name with
    | "webfinger" =>
      handleWebFinger request context fed.actorDispatcher onNotFound
    | "actor" =>
      handleActor request (route.values.lookup "handle") context
        fed.actorDispatcher onNotFound onNotAcceptable
    | "outbox" =>
      handleOutbox request (route.values.lookup "handle") context
        fed.outboxCallbacks onNotFound onNotAcceptable
    | "inbox" =>
      handleInbox request (route.values.lookup "handle") context
        fed.actorDispatcher fed.inboxListeners fed.inboxErrorHandler onNotFound
    | _ => onNotFound request

/-- The `handle`-arity contract checked by every path-registering setter
(middleware.ts:76, 101, 135): the pattern's variable set is exactly the
singleton containing `handle`. -/
def goodPattern (path : String) : Prop :=
  (patternVariables path).length = 1 ∧ "handle" ∈ patternVariables path

instance (path : String) : Decidable (goodPattern path) := by
  unfold goodPattern; infer_instance

/-- A concrete `Federation` instance over `Nat`-coded callbacks, used to
evaluate the registration theorems on concrete inputs. -/
def fedExample : Federation Nat Nat Nat Nat Nat Nat := Federation.init false

/-- `fedExample` after a successful actor-dispatcher registration. -/
def fedWithActor : Federation Nat Nat Nat Nat Nat Nat :=
  (fedExample.setActorDispatcher "/users/\x7bhandle\x7d" 3).2

/-- `fedExample` after a successful outbox-dispatcher registration. -/
def fedWithOutbox : Federation Nat Nat Nat Nat Nat Nat :=
  (fedExample.setOutboxDispatcher "/users/\x7bhandle\x7d/outbox" 7).2

/-- `fedExample` after a successful inbox-listener registration. -/
def fedWithInbox : Federation Nat Nat Nat Nat Nat Nat :=
  (fedExample.setInboxListeners "/users/\x7bhandle\x7d/inbox").2

/-- `fedWithInbox` after registering a listener for the `Follow` variant. -/
def fedWithListener : Federation Nat Nat Nat Nat Nat Nat :=
  (fedWithInbox.on "Follow" 5).2

/-- A `Federation` state whose router holds a route under a role name that is
none of the four dispatchable roles, used to evaluate the fall-through branch
of `Federation.handle`. -/
def fedBogusRole : Federation Nat Nat Nat Nat Nat Nat :=
  { router := ⟨[("/x", "bogus")]⟩
    actorDispatcher := none
    outboxCallbacks := none
    inboxListeners := []
    inboxErrorHandler := none
    treatHttps := false }

/-- The `Group` recipient of `send.test.ts`: personal inbox only. -/
def groupRecipient : Recipient :=
  ⟨"https://example.org/group", "https://example.org/group/inbox", none⟩

/-- The `Service` recipient of `send.test.ts`: declares a shared inbox. -/
def serviceRecipient : Recipient :=
  ⟨"https://example.net/service", "https://example.net/service/inbox",
   some "https://example.net/inbox"⟩

/-- The `Person` recipient of `send.test.ts`: shares its shared inbox with
`appRecipient`. -/
def aliceRecipient : Recipient :=
  ⟨"https://example.com/alice", "https://example.com/alice/inbox",
   some "https://example.com/inbox"⟩

/-- The `Application` recipient of `send.test.ts`: shares its shared inbox
with `aliceRecipient` while their personal inboxes differ. -/
def appRecipient : Recipient :=
  ⟨"https://example.com/app", "https://example.com/app/inbox",
   some "https://example.com/inbox"⟩

end Fedify

namespace Fedify

variable {A OD OC OCur L H : Type}

/-! ## Helper lemmas -/

theorem router_has_append_self (routes : List (String × String))
    (pattern name : String) :
    Router.has ⟨routes ++ [(pattern, name)]⟩ name = true := by
  simp [Router.has]

theorem not_goodPattern_iff (path : String) :
    ¬ goodPattern path ↔
      ((patternVariables path).length ≠ 1 ∨ "handle" ∉ patternVariables path) := by
  unfold goodPattern; tauto

theorem setActorDispatcher_ok (fed : Federation A OD OC OCur L H)
    (path : String) (dA : A)
    (h : (fed.setActorDispatcher path dA).1 = none) :
    goodPattern path ∧
      (fed.setActorDispatcher path dA).2 =
        { fed with router := ⟨fed.router.routes ++ [(path, "actor")]⟩,
                   actorDispatcher := some dA } := by
  unfold Federation.setActorDispatcher at *
  by_cases hhas : fed.router.has "actor"
  · simp [hhas] at h
  · by_cases hbad : (patternVariables path).length ≠ 1 ∨ "handle" ∉ patternVariables path
    · simp [hhas, Router.add, hbad] at h
    · refine ⟨?_, by simp [hhas, Router.add, hbad]⟩
      unfold goodPattern
      tauto

theorem setOutboxDispatcher_ok (fed : Federation A OD OC OCur L H)
    (path : String) (dO : OD)
    (h : (fed.setOutboxDispatcher path dO).1 = none) :
    goodPattern path ∧
      (fed.setOutboxDispatcher path dO).2 =
        { fed with router := ⟨fed.router.routes ++ [(path, "outbox")]⟩,
                   outboxCallbacks := some ⟨dO, none, none, none⟩ } := by
  unfold Federation.setOutboxDispatcher at *
  by_cases hhas : fed.router.has "outbox"
  · simp [hhas] at h
  · by_cases hbad : (patternVariables path).length ≠ 1 ∨ "handle" ∉ patternVariables path
    · simp [hhas, Router.add, hbad] at h
    · refine ⟨?_, by simp [hhas, Router.add, hbad]⟩
      unfold goodPattern
      tauto

theorem setInboxListeners_ok (fed : Federation A OD OC OCur L H)
    (path : String)
    (h : (fed.setInboxListeners path).1 = none) :
    goodPattern path ∧
      (fed.setInboxListeners path).2 =
        { fed with router := ⟨fed.router.routes ++ [(path, "inbox")]⟩ } := by
  unfold Federation.setInboxListeners at *
  by_cases hhas : fed.router.has "inbox"
  · simp [hhas] at h
  · by_cases hbad : (patternVariables path).length ≠ 1 ∨ "handle" ∉ patternVariables path
    · simp [hhas, Router.add, hbad] at h
    · refine ⟨?_, by simp [hhas, Router.add, hbad]⟩
      unfold goodPattern
      tauto


/-! ## Claim theorems: send pipeline -/

/-- C3: a call to `sendActivity` whose activity has no `actor` property fails
with a `TypeError`-class error whose message is exactly
`The activity to send must have at least one actor property.`, and no network
request is issued (the issued-flag is `false`, and the result is independent
of the remote response). -/
theorem sendActivity_no_actor_fails_before_network (activity : Activity)
    (inbox : String) (response : HttpResponse)
    (h : activity.actors = []) :
    sendActivity activity inbox response =
      (.error (.typeError
        "The activity to send must have at least one actor property."),
       false) := by
  simp [sendActivity, h]

/-- Witness for C3: the concrete actor-less `Create` activity of
`send.test.ts` fails with the exact message and without issuing the POST. -/
theorem sendActivity_no_actor_fails_before_network_witness :
    sendActivity ⟨none, []⟩ "https://example.com/inbox2"
        ⟨500, "Internal Server Error", "something went wrong"⟩ =
      (.error (.typeError
        "The activity to send must have at least one actor property."),
       false) :=
  sendActivity_no_actor_fails_before_network _ _ _ rfl

/-- C4: a `sendActivity` call whose activity has an actor and whose target
inbox answers with a non-2xx status fails with a delivery error whose message
is exactly `Failed to send activity <id> to <inbox> (<status> <statusText>):`
followed by a newline and the response body verbatim. -/
theorem sendActivity_non2xx_fails_with_diagnostics (activity : Activity)
    (inbox i : String) (response : HttpResponse)
    (hactor : activity.actors ≠ [])
    (hid : activity.id = some i)
    (hstatus : ¬ (200 ≤ response.status ∧ response.status < 300)) :
    sendActivity activity inbox response =
      (.error (.deliveryError
        ("Failed to send activity " ++ i ++ " to " ++ inbox ++ " (" ++
          toString response.status ++ " " ++ response.statusText ++ "):\n" ++
          response.body)),
       true) := by
  unfold sendActivity
  rw [if_neg (by simp [List.isEmpty_iff, hactor]), if_neg hstatus, hid]
  rfl

/-- Witness for C4: the concrete failure case of `send.test.ts` — a 500
`Internal Server Error` with body `something went wrong` — produces exactly
the message asserted by the test. -/
theorem sendActivity_non2xx_fails_with_diagnostics_witness :
    sendActivity ⟨some "https://example.com/activity", ["https://example.com/person"]⟩
        "https://example.com/inbox2"
        ⟨500, "Internal Server Error", "something went wrong"⟩ =
      (.error (.deliveryError
        "Failed to send activity https://example.com/activity to https://example.com/inbox2 (500 Internal Server Error):\nsomething went wrong"),
       true) := by
  have h := sendActivity_non2xx_fails_with_diagnostics
    ⟨some "https://example.com/activity", ["https://example.com/person"]⟩
    "https://example.com/inbox2" "https://example.com/activity"
    ⟨500, "Internal Server Error", "something went wrong"⟩
    (by decide) rfl (by decide)
  exact h

/-! ## Claim theorems: registration -/

/-- C5 counterexample: on the chain returned by `setOutboxDispatcher`, a
second `setCounter` call does not fail — the closure assigns
`callbacks.counter` unconditionally (middleware.ts:114-117) — so at this
concrete input the first stored counter `1` is silently replaced by `2`. -/
theorem outbox_chain_second_setCounter_overwrites :
    (fedExample.setOutboxDispatcher "/users/\x7bhandle\x7d/outbox" 7).1 = none ∧
    (fedWithOutbox.setCounter 1).outboxCallbacks = some ⟨7, some 1, none, none⟩ ∧
    ((fedWithOutbox.setCounter 1).setCounter 2).outboxCallbacks =
      some ⟨7, some 2, none, none⟩ := by
  decide

/-- C5 amended: each of `setCounter`, `setFirstCursor`, `setLastCursor` on
the chain returned by `setOutboxDispatcher` may be called again; a second
call to the same setter never fails and silently overwrites the previously
stored callback with the new one, leaving the other slots untouched. -/
theorem outbox_chain_setters_overwrite (fed : Federation A OD OC OCur L H)
    (cb : OutboxCallbacks OD OC OCur) (c1 c2 : OC) (f1 f2 l1 l2 : OCur)
    (h : fed.outboxCallbacks = some cb) :
    ((fed.setCounter c1).setCounter c2).outboxCallbacks =
      some { cb with counter := some c2 } ∧
    ((fed.setFirstCursor f1).setFirstCursor f2).outboxCallbacks =
      some { cb with firstCursor := some f2 } ∧
    ((fed.setLastCursor l1).setLastCursor l2).outboxCallbacks =
      some { cb with lastCursor := some l2 } := by
  simp [Federation.setCounter, Federation.setFirstCursor,
    Federation.setLastCursor, h]

/-- Witness for the amended C5: overwriting observed on the concrete chain
of `fedWithOutbox` for all three setters. -/
theorem outbox_chain_setters_overwrite_witness :
    ((fedWithOutbox.setCounter 1).setCounter 2).outboxCallbacks =
      some ⟨7, some 2, none, none⟩ ∧
    ((fedWithOutbox.setFirstCursor 1).setFirstCursor 2).outboxCallbacks =
      some ⟨7, none, some 2, none⟩ ∧
    ((fedWithOutbox.setLastCursor 1).setLastCursor 2).outboxCallbacks =
      some ⟨7, none, none, some 2⟩ :=
  outbox_chain_setters_overwrite fedWithOutbox ⟨7, none, none, none⟩
    1 2 1 2 1 2 (by decide)

/-- C6: after a first successful registration, a second call to
`setActorDispatcher` fails with the `RouterError`
`Actor dispatcher already set.` and leaves the state — in particular the
stored dispatcher — unchanged; likewise `setOutboxDispatcher`
(`Outbox dispatcher already set.`) and `setInboxListeners`
(`Inbox already set.`). -/
theorem second_registration_fails (fed fedA fedO fedI : Federation A OD OC OCur L H)
    (pathA pathA2 pathO pathO2 pathI pathI2 : String)
    (dA dA2 : A) (dO dO2 : OD) :
    (fed.setActorDispatcher pathA dA = (none, fedA) →
      fedA.actorDispatcher = some dA ∧
      fedA.setActorDispatcher pathA2 dA2 =
        (some (.routerError "Actor dispatcher already set."), fedA)) ∧
    (fed.setOutboxDispatcher pathO dO = (none, fedO) →
      fedO.outboxCallbacks = some ⟨dO, none, none, none⟩ ∧
      fedO.setOutboxDispatcher pathO2 dO2 =
        (some (.routerError "Outbox dispatcher already set."), fedO)) ∧
    (fed.setInboxListeners pathI = (none, fedI) →
      fedI.setInboxListeners pathI2 =
        (some (.routerError "Inbox already set."), fedI)) := by
  refine ⟨fun h => ?_, fun h => ?_, fun h => ?_⟩
  · obtain ⟨-, hstate⟩ := setActorDispatcher_ok fed pathA dA (by rw [h])
    rw [h] at hstate
    simp only at hstate
    subst hstate
    exact ⟨rfl, by simp [Federation.setActorDispatcher, router_has_append_self]⟩
  · obtain ⟨-, hstate⟩ := setOutboxDispatcher_ok fed pathO dO (by rw [h])
    rw [h] at hstate
    simp only at hstate
    subst hstate
    exact ⟨rfl, by simp [Federation.setOutboxDispatcher, router_has_append_self]⟩
  · obtain ⟨-, hstate⟩ := setInboxListeners_ok fed pathI (by rw [h])
    rw [h] at hstate
    simp only at hstate
    subst hstate
    simp [Federation.setInboxListeners, router_has_append_self]

/-- Witness for C6: concrete second registrations on `fedWithActor`,
`fedWithOutbox` and `fedWithInbox` fail with the exact messages. -/
theorem second_registration_fails_witness :
    (fedWithActor.actorDispatcher = some 3 ∧
      fedWithActor.setActorDispatcher "/people/\x7bhandle\x7d" 4 =
        (some (.routerError "Actor dispatcher already set."), fedWithActor)) ∧
    (fedWithOutbox.outboxCallbacks = some ⟨7, none, none, none⟩ ∧
      fedWithOutbox.setOutboxDispatcher "/o/\x7bhandle\x7d" 8 =
        (some (.routerError "Outbox dispatcher already set."), fedWithOutbox)) ∧
    (fedWithInbox.setInboxListeners "/i/\x7bhandle\x7d" =
        (some (.routerError "Inbox already set."), fedWithInbox)) :=
  ⟨(second_registration_fails fedExample fedWithActor fedWithOutbox fedWithInbox
      "/users/\x7bhandle\x7d" "/people/\x7bhandle\x7d" "" "" "" "" 3 4 7 8).1
      (by decide),
   (second_registration_fails fedExample fedWithActor fedWithOutbox fedWithInbox
      "" "" "/users/\x7bhandle\x7d/outbox" "/o/\x7bhandle\x7d" "" "" 3 4 7 8).2.1
      (by decide),
   (second_registration_fails fedExample fedWithActor fedWithOutbox fedWithInbox
      "" "" "" "" "/users/\x7bhandle\x7d/inbox" "/i/\x7bhandle\x7d" 3 4 7 8).2.2
      (by decide)⟩


/-- C7: `on` registers exactly one listener per activity variant — when a
listener already exists for the variant it fails with the `TypeError`
`Listener already set for this type.` and leaves the listener map (and all
other state) unchanged; when none exists it stores the listener at the end of
the map, all state inspected through the same setter. -/
theorem inbox_on_exactly_once (fed : Federation A OD OC OCur L H)
    (type : String) (listener : L) :
    (fed.inboxListeners.any (fun entry => entry.1 = type) = true →
      fed.on type listener =
        (some (.typeError "Listener already set for this type."), fed)) ∧
    (fed.inboxListeners.any (fun entry => entry.1 = type) = false →
      fed.on type listener =
        (none, { fed with
          inboxListeners := fed.inboxListeners ++ [(type, listener)] })) := by
  constructor <;> intro h <;> simp [Federation.on, h]

/-- Witness for C7: on the concrete state `fedWithListener`, re-registering
the `Follow` variant fails with the exact message and changes nothing, while
registering the fresh `Create` variant stores the listener. -/
theorem inbox_on_exactly_once_witness :
    (fedWithListener.on "Follow" 9 =
      (some (.typeError "Listener already set for this type."), fedWithListener)) ∧
    (fedWithListener.on "Create" 9 =
      (none, { fedWithListener with
        inboxListeners := fedWithListener.inboxListeners ++ [("Create", 9)] })) :=
  ⟨(inbox_on_exactly_once fedWithListener "Follow" 9).1 (by decide),
   (inbox_on_exactly_once fedWithListener "Create" 9).2 (by decide)⟩

/-- C8: each path-registering setter enforces the `handle`-arity contract —
when the pattern's variable set is not exactly the singleton containing
`handle`, `setActorDispatcher`, `setOutboxDispatcher` and `setInboxListeners`
all fail with a `RouterError`-class error; and whenever one of them succeeds
the pattern was good and the dispatcher (resp. outbox bundle) was stored. -/
theorem setters_require_handle_variable (fed : Federation A OD OC OCur L H)
    (path : String) (dA : A) (dO : OD) :
    (¬ goodPattern path →
      (∃ m, (fed.setActorDispatcher path dA).1 = some (.routerError m)) ∧
      (∃ m, (fed.setOutboxDispatcher path dO).1 = some (.routerError m)) ∧
      (∃ m, (fed.setInboxListeners path).1 = some (.routerError m))) ∧
    ((fed.setActorDispatcher path dA).1 = none →
      goodPattern path ∧
      (fed.setActorDispatcher path dA).2.actorDispatcher = some dA) ∧
    ((fed.setOutboxDispatcher path dO).1 = none →
      goodPattern path ∧
      (fed.setOutboxDispatcher path dO).2.outboxCallbacks =
        some ⟨dO, none, none, none⟩) ∧
    ((fed.setInboxListeners path).1 = none → goodPattern path) := by
  refine ⟨fun hbad => ?_, fun h => ?_, fun h => ?_, fun h => ?_⟩
  · rw [not_goodPattern_iff] at hbad
    refine ⟨?_, ?_, ?_⟩
    · unfold Federation.setActorDispatcher
      by_cases hhas : fed.router.has "actor"
      · exact ⟨"Actor dispatcher already set.", by simp [hhas]⟩
      · exact ⟨"Path for actor dispatcher must have one variable: \x7bhandle\x7d",
          by simp [hhas, Router.add, hbad]⟩
    · unfold Federation.setOutboxDispatcher
      by_cases hhas : fed.router.has "outbox"
      · exact ⟨"Outbox dispatcher already set.", by simp [hhas]⟩
      · exact ⟨"Path for outbox dispatcher must have one variable: \x7bhandle\x7d",
          by simp [hhas, Router.add, hbad]⟩
    · unfold Federation.setInboxListeners
      by_cases hhas : fed.router.has "inbox"
      · exact ⟨"Inbox already set.", by simp [hhas]⟩
      · exact ⟨"Path for inbox must have one variable: \x7bhandle\x7d",
          by simp [hhas, Router.add, hbad]⟩
  · obtain ⟨hgood, hstate⟩ := setActorDispatcher_ok fed path dA h
    exact ⟨hgood, by rw [hstate]⟩
  · obtain ⟨hgood, hstate⟩ := setOutboxDispatcher_ok fed path dO h
    exact ⟨hgood, by rw [hstate]⟩
  · exact (setInboxListeners_ok fed path h).1

/-- Witness for C8: the variable-free pattern `/users` is rejected by all
three setters on the fresh instance, and the good pattern registrations of
`fedWithActor` / `fedWithOutbox` store their callbacks. -/
theorem setters_require_handle_variable_witness :
    ((∃ m, (fedExample.setActorDispatcher "/users" 3).1 = some (.routerError m)) ∧
     (∃ m, (fedExample.setOutboxDispatcher "/users" 7).1 = some (.routerError m)) ∧
     (∃ m, (fedExample.setInboxListeners "/users").1 = some (.routerError m))) ∧
    (goodPattern "/users/\x7bhandle\x7d" ∧
      (fedExample.setActorDispatcher "/users/\x7bhandle\x7d" 3).2.actorDispatcher =
        some 3) :=
  ⟨(setters_require_handle_variable fedExample "/users" 3 7).1 (by decide),
   (setters_require_handle_variable fedExample "/users/\x7bhandle\x7d" 3 7).2.1
     (by decide)⟩

/-- C9: `Federation.handle` returns exactly the `onNotFound` response when
the request path matches no registered route, and likewise when the matched
route's role name is none of `webfinger`, `actor`, `outbox`, `inbox`. -/
theorem handle_unmatched_is_not_found {CD R : Type}
    (fed : Federation A OD OC OCur L H) (request : Request) (contextData : CD)
    (onNotFound onNotAcceptable : Request → R)
    (hWF : Request → Context CD → Option A → (Request → R) → R)
    (hActor : Request → Option String → Context CD → Option A →
      (Request → R) → (Request → R) → R)
    (hOutbox : Request → Option String → Context CD →
      Option (OutboxCallbacks OD OC OCur) → (Request → R) → (Request → R) → R)
    (hInbox : Request → Option String → Context CD → Option A →
      List (String × L) → Option H → (Request → R) → R) :
    (fed.router.route request.pathname = none →
      fed.handle request contextData onNotFound onNotAcceptable
          hWF hActor hOutbox hInbox = onNotFound request) ∧
    (∀ route, fed.router.route request.pathname = some route →
      route.name ≠ "webfinger" → route.name ≠ "actor" →
      route.name ≠ "outbox" → route.name ≠ "inbox" →
      fed.handle request contextData onNotFound onNotAcceptable
          hWF hActor hOutbox hInbox = onNotFound request) := by
  constructor
  · intro h
    simp [Federation.handle, h]
  · intro route h h1 h2 h3 h4
    simp only [Federation.handle, h]

/-- Witness for C9: on `fedBogusRole`, the unroutable path `/nope` and the
path `/x` (routed to the role `bogus`) both produce the `onNotFound`
response. -/
theorem handle_unmatched_is_not_found_witness :
    (fedBogusRole.handle ⟨"/nope"⟩ 0 (fun _ => 100) (fun _ => 200)
        (fun _ _ _ _ => 300) (fun _ _ _ _ _ _ => 400)
        (fun _ _ _ _ _ _ => 500) (fun _ _ _ _ _ _ _ => 600) = 100) ∧
    (fedBogusRole.handle ⟨"/x"⟩ 0 (fun _ => 100) (fun _ => 200)
        (fun _ _ _ _ => 300) (fun _ _ _ _ _ _ => 400)
        (fun _ _ _ _ _ _ => 500) (fun _ _ _ _ _ _ _ => 600) = 100) :=
  ⟨(handle_unmatched_is_not_found fedBogusRole ⟨"/nope"⟩ 0 (fun _ => 100)
      (fun _ => 200) (fun _ _ _ _ => 300) (fun _ _ _ _ _ _ => 400)
      (fun _ _ _ _ _ _ => 500) (fun _ _ _ _ _ _ _ => 600)).1 (by decide),
   (handle_unmatched_is_not_found fedBogusRole ⟨"/x"⟩ 0 (fun _ => 100)
      (fun _ => 200) (fun _ _ _ _ => 300) (fun _ _ _ _ _ _ => 400)
      (fun _ _ _ _ _ _ => 500) (fun _ _ _ _ _ _ _ => 600)).2
      ⟨"bogus", []⟩ (by decide) (by decide) (by decide) (by decide) (by decide)⟩

/-- C10: the path-registering setters are not atomic on validation failure —
on a pattern failing the `handle`-arity check (with the role not yet routed),
the route is added before the error is thrown, so the post-state routes the
role while storing no dispatcher or listener, and every subsequent call of
the same setter fails with the `already set` error. -/
theorem setters_not_atomic_on_arity_failure (fed : Federation A OD OC OCur L H)
    (path path2 : String) (dA dA2 : A) (dO dO2 : OD)
    (hbad : ¬ goodPattern path) :
    (fed.router.has "actor" = false →
      (fed.setActorDispatcher path dA).1 = some (.routerError
        "Path for actor dispatcher must have one variable: \x7bhandle\x7d") ∧
      (fed.setActorDispatcher path dA).2.router.has "actor" = true ∧
      (fed.setActorDispatcher path dA).2.actorDispatcher = fed.actorDispatcher ∧
      (fed.setActorDispatcher path dA).2.setActorDispatcher path2 dA2 =
        (some (.routerError "Actor dispatcher already set."),
         (fed.setActorDispatcher path dA).2)) ∧
    (fed.router.has "outbox" = false →
      (fed.setOutboxDispatcher path dO).1 = some (.routerError
        "Path for outbox dispatcher must have one variable: \x7bhandle\x7d") ∧
      (fed.setOutboxDispatcher path dO).2.router.has "outbox" = true ∧
      (fed.setOutboxDispatcher path dO).2.outboxCallbacks = fed.outboxCallbacks ∧
      (fed.setOutboxDispatcher path dO).2.setOutboxDispatcher path2 dO2 =
        (some (.routerError "Outbox dispatcher already set."),
         (fed.setOutboxDispatcher path dO).2)) ∧
    (fed.router.has "inbox" = false →
      (fed.setInboxListeners path).1 = some (.routerError
        "Path for inbox must have one variable: \x7bhandle\x7d") ∧
      (fed.setInboxListeners path).2.router.has "inbox" = true ∧
      (fed.setInboxListeners path).2.inboxListeners = fed.inboxListeners ∧
      (fed.setInboxListeners path).2.setInboxListeners path2 =
        (some (.routerError "Inbox already set."),
         (fed.setInboxListeners path).2)) := by
  rw [not_goodPattern_iff] at hbad
  refine ⟨fun hhas => ?_, fun hhas => ?_, fun hhas => ?_⟩
  · have hfst : fed.setActorDispatcher path dA =
        (some (.routerError
          "Path for actor dispatcher must have one variable: \x7bhandle\x7d"),
         { fed with router := ⟨fed.router.routes ++ [(path, "actor")]⟩ }) := by
      simp [Federation.setActorDispatcher, hhas, Router.add, hbad]
    rw [hfst]
    exact ⟨rfl, router_has_append_self _ _ _, rfl,
      by simp [Federation.setActorDispatcher, router_has_append_self]⟩
  · have hfst : fed.setOutboxDispatcher path dO =
        (some (.routerError
          "Path for outbox dispatcher must have one variable: \x7bhandle\x7d"),
         { fed with router := ⟨fed.router.routes ++ [(path, "outbox")]⟩ }) := by
      simp [Federation.setOutboxDispatcher, hhas, Router.add, hbad]
    rw [hfst]
    exact ⟨rfl, router_has_append_self _ _ _, rfl,
      by simp [Federation.setOutboxDispatcher, router_has_append_self]⟩
  · have hfst : fed.setInboxListeners path =
        (some (.routerError
          "Path for inbox must have one variable: \x7bhandle\x7d"),
         { fed with router := ⟨fed.router.routes ++ [(path, "inbox")]⟩ }) := by
      simp [Federation.setInboxListeners, hhas, Router.add, hbad]
    rw [hfst]
    exact ⟨rfl, router_has_append_self _ _ _, rfl,
      by simp [Federation.setInboxListeners, router_has_append_self]⟩

/-- Witness for C10: registering the arity-violating pattern `/users` on the
fresh instance poisons the `actor` role — the route is present, no dispatcher
is stored, and a subsequent good registration fails with `already set`. -/
theorem setters_not_atomic_on_arity_failure_witness :
    (fedExample.setActorDispatcher "/users" 3).1 = some (.routerError
      "Path for actor dispatcher must have one variable: \x7bhandle\x7d") ∧
    (fedExample.setActorDispatcher "/users" 3).2.router.has "actor" = true ∧
    (fedExample.setActorDispatcher "/users" 3).2.actorDispatcher =
      fedExample.actorDispatcher ∧
    (fedExample.setActorDispatcher "/users" 3).2.setActorDispatcher
        "/users/\x7bhandle\x7d" 4 =
      (some (.routerError "Actor dispatcher already set."),
       (fedExample.setActorDispatcher "/users" 3).2) :=
  (setters_not_atomic_on_arity_failure fedExample "/users" "/users/\x7bhandle\x7d"
    3 4 7 8 (by decide)).1 (by decide)


/-! ## Lemmas on the inbox grouping of `extractInboxes` -/

theorem chooseInbox_false (r : Recipient) : chooseInbox false r = r.inbox := by
  cases h : r.sharedInbox <;> simp [chooseInbox, h]

theorem mem_insertId_self (ids : List String) (id : String) :
    id ∈ insertId ids id := by
  unfold insertId
  split <;> simp_all

theorem mem_insertId_of_mem (ids : List String) (id x : String) (h : x ∈ ids) :
    x ∈ insertId ids id := by
  unfold insertId
  split <;> simp_all

theorem addRecipient_of_not_mem (acc : List (String × List String))
    (inbox id : String) (h : inbox ∉ acc.map Prod.fst) :
    addRecipient acc inbox id = acc ++ [(inbox, [id])] := by
  induction acc with
  | nil => rfl
  | cons e rest ih =>
    obtain ⟨k, v⟩ := e
    simp only [List.map_cons, List.mem_cons] at h
    push_neg at h
    simp [addRecipient, Ne.symm h.1, ih h.2]

theorem addRecipient_keys (acc : List (String × List String))
    (inbox id : String) :
    (addRecipient acc inbox id).map Prod.fst =
      if inbox ∈ acc.map Prod.fst then acc.map Prod.fst
      else acc.map Prod.fst ++ [inbox] := by
  induction acc with
  | nil => simp [addRecipient]
  | cons e rest ih =>
    obtain ⟨k, v⟩ := e
    by_cases hk : k = inbox
    · simp [addRecipient, hk]
    · simp only [addRecipient, if_neg hk, List.map_cons, ih, List.mem_cons]
      by_cases hmem : inbox ∈ rest.map Prod.fst
      · simp [hmem, hk, Ne.symm hk]
      · simp [hmem, hk, Ne.symm hk]

theorem addRecipient_keys_mem (acc : List (String × List String))
    (inbox id s : String) :
    s ∈ (addRecipient acc inbox id).map Prod.fst ↔
      s ∈ acc.map Prod.fst ∨ s = inbox := by
  rw [addRecipient_keys]
  split
  · constructor
    · exact fun h => Or.inl h
    · rintro (h | rfl)
      · exact h
      · assumption
  · simp

theorem addRecipient_keys_nodup (acc : List (String × List String))
    (inbox id : String) (h : (acc.map Prod.fst).Nodup) :
    ((addRecipient acc inbox id).map Prod.fst).Nodup := by
  rw [addRecipient_keys]
  split
  · exact h
  · simp_all [List.nodup_append]

theorem addRecipient_mem_self (acc : List (String × List String))
    (inbox id : String) :
    ∃ v, (inbox, v) ∈ addRecipient acc inbox id ∧ id ∈ v := by
  induction acc with
  | nil => exact ⟨[id], by simp [addRecipient], by simp⟩
  | cons e rest ih =>
    obtain ⟨k, v⟩ := e
    by_cases hk : k = inbox
    · subst hk
      exact ⟨insertId v id, by simp [addRecipient], mem_insertId_self v id⟩
    · obtain ⟨v', hv', hid⟩ := ih
      exact ⟨v', by simp [addRecipient, hk, hv'], hid⟩

theorem addRecipient_persists (acc : List (String × List String))
    (inbox id k x : String) (v : List String)
    (hmem : (k, v) ∈ acc) (hx : x ∈ v) :
    ∃ v', (k, v') ∈ addRecipient acc inbox id ∧ x ∈ v' := by
  induction acc with
  | nil => simp at hmem
  | cons e rest ih =>
    obtain ⟨k0, v0⟩ := e
    rcases List.mem_cons.mp hmem with hhead | htail
    · injection hhead with hk hv
      subst hk; subst hv
      by_cases hk0 : k = inbox
      · exact ⟨insertId v id, by simp [addRecipient, hk0],
          mem_insertId_of_mem v id x hx⟩
      · exact ⟨v, by simp [addRecipient, hk0], hx⟩
    · by_cases hk0 : k0 = inbox
      · exact ⟨v, by simp [addRecipient, hk0, htail], hx⟩
      · obtain ⟨v', hv', hxv⟩ := ih htail
        exact ⟨v', by simp [addRecipient, hk0, hv'], hxv⟩

theorem extractInboxesFrom_keys_nodup (p : Bool) (excl : List String)
    (rs : List Recipient) :
    ∀ acc, (acc.map Prod.fst).Nodup →
      ((extractInboxesFrom p excl acc rs).map Prod.fst).Nodup := by
  induction rs with
  | nil => exact fun acc h => h
  | cons r rs ih =>
    intro acc h
    unfold extractInboxesFrom
    split
    · exact ih acc h
    · exact ih _ (addRecipient_keys_nodup acc _ r.id h)

theorem extractInboxesFrom_persists (p : Bool) (excl : List String)
    (rs : List Recipient) :
    ∀ acc k x (v : List String), (k, v) ∈ acc → x ∈ v →
      ∃ v', (k, v') ∈ extractInboxesFrom p excl acc rs ∧ x ∈ v' := by
  induction rs with
  | nil => exact fun acc k x v hmem hx => ⟨v, hmem, hx⟩
  | cons r rs ih =>
    intro acc k x v hmem hx
    unfold extractInboxesFrom
    split
    · exact ih acc k x v hmem hx
    · obtain ⟨v', hv', hxv⟩ :=
        addRecipient_persists acc (chooseInbox p r) r.id k x v hmem hx
      exact ih _ k x v' hv' hxv

theorem extractInboxesFrom_covers (p : Bool) (excl : List String)
    (rs : List Recipient) :
    ∀ acc r, r ∈ rs → excludedInbox excl (chooseInbox p r) = false →
      ∃ v, (chooseInbox p r, v) ∈ extractInboxesFrom p excl acc rs ∧
        r.id ∈ v := by
  induction rs with
  | nil => intro acc r h; simp at h
  | cons r0 rs ih =>
    intro acc r hmem hex
    rcases List.mem_cons.mp hmem with rfl | htail
    · unfold extractInboxesFrom
      rw [hex]
      simp only [Bool.false_eq_true, if_false]
      obtain ⟨v, hv, hid⟩ := addRecipient_mem_self acc (chooseInbox p r) r.id
      exact extractInboxesFrom_persists p excl rs _ _ _ v hv hid
    · unfold extractInboxesFrom
      split
      · exact ih acc r htail hex
      · exact ih _ r htail hex

theorem extractInboxesFrom_keys_mem (p : Bool) (excl : List String)
    (rs : List Recipient) :
    ∀ acc s, s ∈ (extractInboxesFrom p excl acc rs).map Prod.fst ↔
      s ∈ acc.map Prod.fst ∨
        ∃ r ∈ rs, excludedInbox excl (chooseInbox p r) = false ∧
          chooseInbox p r = s := by
  induction rs with
  | nil => simp [extractInboxesFrom]
  | cons r0 rs ih =>
    intro acc s
    unfold extractInboxesFrom
    split
    · rename_i hex
      rw [ih acc s]
      constructor
      · rintro (h | ⟨r, hr, h1, h2⟩)
        · exact Or.inl h
        · exact Or.inr ⟨r, List.mem_cons_of_mem r0 hr, h1, h2⟩
      · rintro (h | ⟨r, hr, h1, h2⟩)
        · exact Or.inl h
        · rcases List.mem_cons.mp hr with rfl | htail
          · rw [hex] at h1
            simp at h1
          · exact Or.inr ⟨r, htail, h1, h2⟩
    · rename_i hex
      rw [ih _ s, addRecipient_keys_mem]
      rw [Bool.not_eq_true] at hex
      constructor
      · rintro ((h | rfl) | ⟨r, hr, h1, h2⟩)
        · exact Or.inl h
        · exact Or.inr ⟨r0, List.mem_cons_self r0 rs, hex, rfl⟩
        · exact Or.inr ⟨r, List.mem_cons_of_mem r0 hr, h1, h2⟩
      · rintro (h | ⟨r, hr, h1, h2⟩)
        · exact Or.inl (Or.inl h)
        · rcases List.mem_cons.mp hr with rfl | htail
          · exact Or.inl (Or.inr h2.symm)
          · exact Or.inr ⟨r, htail, h1, h2⟩

theorem extractInboxesFrom_distinct (excl : List String) (rs : List Recipient) :
    ∀ acc, (rs.map Recipient.inbox).Nodup →
      (∀ r ∈ rs, r.inbox ∉ acc.map Prod.fst) →
      extractInboxesFrom false excl acc rs =
        acc ++ (rs.filter (fun r => !(excludedInbox excl r.inbox))).map
          (fun r => (r.inbox, [r.id])) := by
  induction rs with
  | nil => simp [extractInboxesFrom]
  | cons r rs ih =>
    intro acc hnd hdisj
    simp only [List.map_cons, List.nodup_cons] at hnd
    unfold extractInboxesFrom
    rw [chooseInbox_false]
    by_cases hex : excludedInbox excl r.inbox
    · rw [if_pos hex]
      rw [ih acc hnd.2 (fun r' hr' => hdisj r' (List.mem_cons_of_mem r hr'))]
      simp [List.filter_cons, hex]
    · rw [if_neg (by rw [Bool.not_eq_true]; exact Bool.eq_false_iff.mpr hex)]
      rw [addRecipient_of_not_mem acc r.inbox r.id
        (hdisj r (List.mem_cons_self r rs))]
      rw [ih (acc ++ [(r.inbox, [r.id])]) hnd.2 ?_]
      · rw [List.filter_cons, if_pos (by simp [Bool.eq_false_iff.mpr hex])]
        simp
      · intro r' hr'
        simp only [List.map_append, List.mem_append, List.map_cons]
        push_neg
        refine ⟨hdisj r' (List.mem_cons_of_mem r hr'), ?_⟩
        simp only [List.map_nil, List.mem_singleton]
        intro hcontra
        exact hnd.1 (hcontra ▸ List.mem_map_of_mem Recipient.inbox hr')


/-! ## Claim theorems: inbox extraction -/

/-- C1: for a recipients list with pairwise distinct (personal) inboxes, the
mapping returned by `extractInboxes` has exactly one entry per distinct inbox
URL — its keys are precisely the inboxes of the non-excluded recipients in
order, without duplicates — and the union of the recipient-identifier sets
equals the set of input recipient identifiers of non-excluded recipients: no
recipient is lost or duplicated, and recipients whose chosen inbox origin
matches an `excludeBaseUris` entry appear nowhere in the output. -/
theorem extractInboxes_distinct_inboxes (recipients : List Recipient)
    (excludeBaseUris : List String)
    (h : (recipients.map Recipient.inbox).Nodup) :
    (extractInboxes recipients false excludeBaseUris).map Prod.fst =
      (recipients.filter
        (fun r => !(excludedInbox excludeBaseUris r.inbox))).map Recipient.inbox ∧
    ((extractInboxes recipients false excludeBaseUris).map Prod.fst).Nodup ∧
    (∀ i, (∃ e ∈ extractInboxes recipients false excludeBaseUris, i ∈ e.2) ↔
      ∃ r ∈ recipients,
        excludedInbox excludeBaseUris r.inbox = false ∧ r.id = i) := by
  have key := extractInboxesFrom_distinct excludeBaseUris recipients [] h
    (by simp)
  have hout : extractInboxes recipients false excludeBaseUris =
      (recipients.filter
        (fun r => !(excludedInbox excludeBaseUris r.inbox))).map
        (fun r => (r.inbox, [r.id])) := by
    rw [extractInboxes, key, List.nil_append]
  refine ⟨?_, ?_, ?_⟩
  · rw [hout, List.map_map]
    rfl
  · rw [hout, List.map_map]
    have hsub : ((recipients.filter
        (fun r => !(excludedInbox excludeBaseUris r.inbox))).map
          Recipient.inbox).Sublist (recipients.map Recipient.inbox) :=
      List.Sublist.map Recipient.inbox (List.filter_sublist recipients)
    exact (hsub.nodup h :
      ((recipients.filter
        (fun r => !(excludedInbox excludeBaseUris r.inbox))).map
          Recipient.inbox).Nodup)
  · intro i
    rw [hout]
    constructor
    · rintro ⟨e, he, hie⟩
      obtain ⟨r, hr, rfl⟩ := List.mem_map.mp he
      obtain ⟨hrs, hkeep⟩ := List.mem_filter.mp hr
      refine ⟨r, hrs, by simpa using hkeep, ?_⟩
      have : i = r.id := by simpa using hie
      exact this.symm
    · rintro ⟨r, hrs, hkeep, rfl⟩
      refine ⟨(r.inbox, [r.id]), List.mem_map_of_mem _ ?_, by simp⟩
      exact List.mem_filter.mpr ⟨hrs, by simp [hkeep]⟩

/-- Witness for C1: on the two distinct-inbox recipients of `send.test.ts`
with no exclusions, the keys are exactly the two inboxes (no duplicates). -/
theorem extractInboxes_distinct_inboxes_witness :
    (extractInboxes [groupRecipient, serviceRecipient] false []).map Prod.fst =
      ([groupRecipient, serviceRecipient].filter
        (fun r => !(excludedInbox [] r.inbox))).map Recipient.inbox ∧
    ((extractInboxes [groupRecipient, serviceRecipient] false []).map
      Prod.fst).Nodup := by
  have h := extractInboxes_distinct_inboxes [groupRecipient, serviceRecipient]
    [] (by decide)
  exact ⟨h.1, h.2.1⟩

/-- C2: with `preferSharedInbox` set, every recipient that declares a shared
inbox is keyed by that shared inbox URL and every recipient without one keeps
its personal inbox as key; the output has at most one entry per key (its keys
are exactly the chosen inboxes of the non-excluded recipients, without
duplicates), and each non-excluded recipient's identifier is contained in the
entry of its chosen inbox — so all recipients sharing a shared inbox collapse
into that single entry even when their personal inboxes differ. -/
theorem extractInboxes_prefer_shared (recipients : List Recipient)
    (excludeBaseUris : List String) :
    ((extractInboxes recipients true excludeBaseUris).map Prod.fst).Nodup ∧
    (∀ r : Recipient, r.sharedInbox = none → chooseInbox true r = r.inbox) ∧
    (∀ (r : Recipient) (sh : String), r.sharedInbox = some sh →
      chooseInbox true r = sh) ∧
    (∀ s, s ∈ (extractInboxes recipients true excludeBaseUris).map Prod.fst ↔
      ∃ r ∈ recipients,
        excludedInbox excludeBaseUris (chooseInbox true r) = false ∧
        chooseInbox true r = s) ∧
    (∀ r ∈ recipients,
      excludedInbox excludeBaseUris (chooseInbox true r) = false →
      ∃ v, (chooseInbox true r, v) ∈ extractInboxes recipients true excludeBaseUris ∧
        r.id ∈ v) := by
  refine ⟨?_, ?_, ?_, ?_, ?_⟩
  · exact extractInboxesFrom_keys_nodup true excludeBaseUris recipients []
      (by simp)
  · intro r h
    simp [chooseInbox, h]
  · intro r sh h
    simp [chooseInbox, h]
  · intro s
    rw [extractInboxes, extractInboxesFrom_keys_mem]
    simp
  · intro r hr hex
    exact extractInboxesFrom_covers true excludeBaseUris recipients [] r hr hex

/-- Witness for C2: on the test's `alice` and `app` recipients — same shared
inbox, different personal inboxes — the output keys are duplicate-free, the
shared inbox is a key, and both identifiers live in the shared-inbox entry. -/
theorem extractInboxes_prefer_shared_witness :
    ((extractInboxes [aliceRecipient, appRecipient] true []).map Prod.fst).Nodup ∧
    "https://example.com/inbox" ∈
      (extractInboxes [aliceRecipient, appRecipient] true []).map Prod.fst ∧
    (∃ v, ("https://example.com/inbox", v) ∈
        extractInboxes [aliceRecipient, appRecipient] true [] ∧
      "https://example.com/alice" ∈ v) ∧
    (∃ v, ("https://example.com/inbox", v) ∈
        extractInboxes [aliceRecipient, appRecipient] true [] ∧
      "https://example.com/app" ∈ v) := by
  have h := extractInboxes_prefer_shared [aliceRecipient, appRecipient] []
  refine ⟨h.1, ?_, ?_, ?_⟩
  · exact (h.2.2.2.1 "https://example.com/inbox").mpr
      ⟨aliceRecipient, by decide, rfl, rfl⟩
  · exact h.2.2.2.2 aliceRecipient (by decide) rfl
  · exact h.2.2.2.2 appRecipient (by decide) rfl

end Fedify
